import Mathlib

/-!
Verification of the jishaku (Red port) Python-evaluation feature against its
specification.  The definitions below are a shallow embedding of
`src/jishaku/features/python.py` and `src/jishaku/features/root_command.py`.
Collaborator classes that live outside those two files (`Scope`,
`AsyncCodeExecutor`, `AsyncSender`, `codeblock_converter`, ...) are modelled
from the specification; each such definition says so in its doc comment.
-/

/-- Runtime values flowing through the evaluator.  Chat entities (users,
channels, roles, messages) are abstracted as `obj` carrying an identity. -/
inductive Val
  | vnone
  | vint (n : Int)
  | vstr (s : String)
  | obj (id : Nat)
deriving DecidableEq, Repr

/-- A Python `dict` of variable bindings, as an association list.
Assignment appends on the right, so lookup takes the rightmost match
(last write wins, as in a Python dict). -/
abbrev VarDict : Type := List (String × Val)

/-- The keys of a variable dict. -/
def VarDict.keys (d : VarDict) : List String := d.map (·.1)

/-- Dict read: the value of the most recent assignment to `k`, if any. -/
def VarDict.lookup (d : VarDict) (k : String) : Option Val :=
  (d.reverse.find? (fun p => p.1 == k)).map (·.2)

/-- Dict write `d[k] = v`: drop any previous binding of `k`, append the new one. -/
def VarDict.set (d : VarDict) (k : String) (v : Val) : VarDict :=
  d.filter (fun p => p.1 != k) ++ [(k, v)]

/-- Modelled from the spec: `jishaku.repl.Scope` (not under `src/`) — "a mutable
variable-binding table"; bindings injected from an argument dict can later be
removed by `clear_intersection` without disturbing other bindings. -/
structure Scope where
  vars : VarDict
deriving DecidableEq, Repr

/-- Read a binding from the scope's live table. -/
def Scope.lookup (s : Scope) (k : String) : Option Val :=
  s.vars.lookup k

/-- Modelled from the spec: `Scope.update(bindings)` — "merge an external mapping
into the live binding table, overwriting on key collision". -/
def Scope.update (s : Scope) (b : VarDict) : Scope :=
  ⟨s.vars.filter (fun p => !((VarDict.keys b).contains p.1)) ++ b⟩

/-- Modelled from the spec: `Scope.clear_intersection(bindings)` — "remove from
the live table every key that is present in `bindings`, leaving any key the
executed code added or changed under a different name untouched". -/
def Scope.clear_intersection (s : Scope) (b : VarDict) : Scope :=
  ⟨s.vars.filter (fun p => !((VarDict.keys b).contains p.1))⟩

/-- The mutable state of `PythonFeature` (src/jishaku/features/python.py,
`__init__`, lines 38-43): the stored scope, the retention flag, the last
result (initially `None`), and the set of channels with an active REPL
session. -/
structure PythonFeature where
  _scope : Scope
  retain : Bool
  last_result : Val
  repl_sessions : List Nat
deriving DecidableEq, Repr

/-- The `scope` property (python.py lines 45-56): the stored scope when
retention is on, otherwise a newly constructed `Scope()`. -/
def PythonFeature.scope (f : PythonFeature) : Scope :=
  if f.retain then f._scope else Scope.mk []

/-- The `jsk retain` command (python.py lines 58-84).  Returns the updated
feature state and the reply text. -/
def jsk_retain (f : PythonFeature) (toggle : Option Bool) : PythonFeature × String :=
  match toggle with
  | none =>
      if f.retain then (f, "Variable retention is set to ON.")
      else (f, "Variable retention is set to OFF.")
  | some true =>
      if f.retain then (f, "Variable retention is already set to ON.")
      else ({ f with retain := true, _scope := Scope.mk [] },
            "Variable retention is ON. Future REPL sessions will retain their scope.")
  | some false =>
      if !f.retain then (f, "Variable retention is already set to OFF.")
      else ({ f with retain := false },
            "Variable retention is OFF. Future REPL sessions will dispose their scope when done.")

/-- How a drive of the executor's produced-result sequence ends: normal
completion, a propagated exception, or cooperative cancellation. -/
inductive Fate
  | normal
  | raised
  | cancelled
deriving DecidableEq, Repr

/-- Modelled from the spec: one drive of an `AsyncCodeExecutor`
(jishaku.repl, not under src/).  `results` are the Produced Results yielded
before the drive ended with `fate`; `codeEffect` abstracts the mutations the
executed code itself performed on the scope (after the executor injected the
argument dict). -/
structure ExecRun where
  results : List Val
  codeEffect : Scope → Scope
  fate : Fate

/-- The arguments with which an `AsyncCodeExecutor` is constructed: source
text, argument dict, and the literal→identifier substitution table
(`convertables`, empty when the caller passes none). -/
structure AsyncCodeExecutorArgs where
  source : String
  argDict : VarDict
  convertables : List (String × String)
deriving DecidableEq, Repr

/-- One step of the consumer loop: the produced result, and the one-shot
continuation value supplied through `send` for it (`none` when the loop
skipped the result without sending anything back). -/
structure DriveStep where
  result : Val
  sentBack : Option Val
deriving DecidableEq, Repr

/-- The `async for send, result in AsyncSender(executor)` loop body shared by
`jsk_python` (python.py lines 177-183) and each REPL iteration (lines
328-334): a `None` result is skipped with nothing sent back; any other result
is handed to the renderer, whose return value (`handle r`) is supplied via
`send`. -/
def pyDriveTrace (handle : Val → Val) : List Val → List DriveStep
  | [] => []
  | r :: rest =>
      if r = Val.vnone then { result := r, sentBack := none } :: pyDriveTrace handle rest
      else { result := r, sentBack := some (handle r) } :: pyDriveTrace handle rest

/-- The value of `self.last_result` after the loop: updated to each non-`None`
result in order (python.py line 181 / 332), left alone for `None` results. -/
def lastResultAfter (init : Val) (rs : List Val) : Val :=
  rs.foldl (fun acc r => if r = Val.vnone then acc else r) init

/-- Modelled from the spec: the reserved last-result binding visible inside
the executor.  It starts at the argument dict's value and each continuation
value supplied through `send` replaces it as "the new value of the reserved
last result binding for the next top-level expression"; a resumption with no
value leaves it alone. -/
def underscoreAfter (init : Val) (steps : List DriveStep) : Val :=
  steps.foldl (fun u s => s.sentBack.getD u) init

/-- A mentionable chat entity (user, channel or role): an identity plus the
literal mention token it renders as in message text. -/
structure Entity where
  eid : Nat
  mention : String
deriving DecidableEq, Repr

/-- The slice of the invocation context the embedded commands read: the
context-derived variable dict, the three mention lists of the triggering
message, and the channel id. -/
structure Ctx where
  ctxVars : VarDict
  mentions : List Entity
  channel_mentions : List Entity
  role_mentions : List Entity
  channelId : Nat

/-- Modelled from the spec: `get_var_dict_from_ctx` (jishaku.repl, not under
src/) exposes invocation-context fields as pre-bound variables under a
reserved prefix; abstracted as the context's prepared variable dict. -/
def get_var_dict_from_ctx (ctx : Ctx) : VarDict := ctx.ctxVars

/-- Division of a natural number by ten, with remainder, by structural
recursion (so that it computes definitionally). -/
def divmod10 : Nat → Nat × Nat
  | 0 => (0, 0)
  | n + 1 =>
      let qr := divmod10 n
      if qr.2 = 9 then (qr.1 + 1, 0) else (qr.1, qr.2 + 1)

/-- The character of one decimal digit. -/
def digitToChar : Nat → Char
  | 0 => '0' | 1 => '1' | 2 => '2' | 3 => '3' | 4 => '4'
  | 5 => '5' | 6 => '6' | 7 => '7' | 8 => '8' | _ => '9'

/-- Decimal digits of a natural number (fuel-based, most significant first). -/
def natToStringAux : Nat → Nat → List Char
  | 0, _ => []
  | fuel + 1, n =>
      let qr := divmod10 n
      if qr.1 = 0 then [digitToChar qr.2]
      else natToStringAux fuel qr.1 ++ [digitToChar qr.2]

/-- Decimal rendering of a natural number, as Python's string formatting of a
mention index produces it. -/
def natToString (n : Nat) : String := String.mk (natToStringAux (n + 1) n)

/-- Write into a string→string dict (used for `convertables`). -/
def strDictSet (d : List (String × String)) (k v : String) : List (String × String) :=
  d.filter (fun p => p.1 != k) ++ [(k, v)]

/-- The `jsk_python_get_convertables` helper (python.py lines 136-160): builds
the arg dict (context vars plus `_` ↦ last result, plus a synthetic binding
per mention) and the mention-token → synthetic-name substitution table. -/
def jsk_python_get_convertables (f : PythonFeature) (ctx : Ctx) :
    VarDict × List (String × String) :=
  let arg_dict := (get_var_dict_from_ctx ctx).set "_" f.last_result
  let fold := fun (pre : String) (acc : VarDict × List (String × String)) (p : Nat × Entity) =>
    (acc.1.set (pre ++ natToString p.1) (Val.obj p.2.eid),
     strDictSet acc.2 p.2.mention (pre ++ natToString p.1))
  let acc1 := ctx.mentions.enum.foldl (fold "__user_mention_") (arg_dict, [])
  let acc2 := ctx.channel_mentions.enum.foldl (fold "__channel_mention_") acc1
  ctx.role_mentions.enum.foldl (fold "__role_mention_") acc2

/-- The kinds of result `jsk_python_result_handling` dispatches on. Strings
carry their text; non-strings carry their `repr`. -/
inductive PyResultVal
  | message (jump_url : String)
  | file (filename : String)
  | embed
  | paginatorInterface
  | str (s : String)
  | other (reprStr : String)
deriving DecidableEq, Repr

/-- What `jsk_python_result_handling` does with a result: send a text message,
send a file with the given name and content, send the embed / given file /
paginator interface it was handed, or paginate long text (with the given
fence). -/
inductive Rendering
  | sentMessage (content : String)
  | sentFile (filename : String) (content : String)
  | sentGivenFile
  | sentEmbed
  | sentPaginatorInterface
  | sentPaginator (pfx : String) (sfx : String) (content : String)
deriving DecidableEq, Repr

/-- The string tail of `jsk_python_result_handling` (python.py lines 105-134):
at most 2000 characters → sent as a message with the bot token replaced by
"[token omitted]" (and a zero-width space for all-whitespace text); longer →
sent verbatim as a file when the file check passes, else through the
paginator, in both cases without the token replacement. -/
def resultStringCase (token : String) (useFileCheck : Bool) (result : String) : Rendering :=
  if result.length ≤ 2000 then
    let result := if result.trim = "" then "\u200B" else result
    Rendering.sentMessage (result.replace token "[token omitted]")
  else if useFileCheck then
    Rendering.sentFile "output.py" result
  else
    Rendering.sentPaginator "```py" "```" result

/-- The `jsk_python_result_handling` renderer (python.py lines 86-134).
`token` is `self.bot.http.token`; `useFileCheck` abstracts `use_file_check`
(not under src/). -/
def jsk_python_result_handling (token : String) (useFileCheck : Bool) :
    PyResultVal → Rendering
  | PyResultVal.message url => Rendering.sentMessage ("<Message <" ++ url ++ ">>")
  | PyResultVal.file _ => Rendering.sentGivenFile
  | PyResultVal.embed => Rendering.sentEmbed
  | PyResultVal.paginatorInterface => Rendering.sentPaginatorInterface
  | PyResultVal.str s => resultStringCase token useFileCheck s
  | PyResultVal.other r => resultStringCase token useFileCheck r

/-- Everything observable about one run of the `jsk py` / `jsk py_inspect`
commands: the updated feature state, the executor construction arguments, the
consumer-loop trace, the results handed to the renderer, the scope after the
`finally` clause ran, and how the drive ended. -/
structure PyOutcome where
  feature : PythonFeature
  exec : AsyncCodeExecutorArgs
  steps : List DriveStep
  rendered : List Val
  finalScope : Scope
  fate : Fate
deriving DecidableEq, Repr

/-- The `jsk py` command (python.py lines 162-186).  `argument` is the
codeblock-stripped source, `handle` abstracts the value
`jsk_python_result_handling` returns (the sent message object), `run` is the
executor drive.  The executor is constructed WITHOUT convertables (line 176),
the loop skips `None` results, and the `finally` clause clears the argument
dict's keys out of the scope on every exit path. -/
def jsk_python (f : PythonFeature) (ctx : Ctx) (argument : String)
    (handle : Val → Val) (run : ExecRun) : PyOutcome :=
  let arg_dict := (get_var_dict_from_ctx ctx).set "_" f.last_result
  let scope := f.scope
  let executor : AsyncCodeExecutorArgs := ⟨argument, arg_dict, []⟩
  let scopeAfterBody := run.codeEffect (scope.update arg_dict)
  let finalScope := scopeAfterBody.clear_intersection arg_dict
  { feature := { f with
      last_result := lastResultAfter f.last_result run.results,
      _scope := if f.retain then finalScope else f._scope },
    exec := executor,
    steps := pyDriveTrace handle run.results,
    rendered := run.results.filter (fun r => r != Val.vnone),
    finalScope := finalScope,
    fate := run.fate }

/-- The consumer loop of `jsk py_inspect` (python.py lines 203-229): every
result — including `None` — updates `last_result` and is rendered (as an
inspection file or paginator, abstracted by `handleI`), with the sent message
supplied back through `send`. -/
def inspectDriveTrace (handleI : Val → Val) : List Val → List DriveStep
  | [] => []
  | r :: rest => { result := r, sentBack := some (handleI r) } :: inspectDriveTrace handleI rest

/-- The `jsk py_inspect` command (python.py lines 188-231).  Identical shell
to `jsk_python` but its loop has no `None` skip: `self.last_result = result`
runs unconditionally (line 204) and an inspection is rendered for every
result. -/
def jsk_python_inspect (f : PythonFeature) (ctx : Ctx) (argument : String)
    (handleI : Val → Val) (run : ExecRun) : PyOutcome :=
  let arg_dict := (get_var_dict_from_ctx ctx).set "_" f.last_result
  let scope := f.scope
  let executor : AsyncCodeExecutorArgs := ⟨argument, arg_dict, []⟩
  let scopeAfterBody := run.codeEffect (scope.update arg_dict)
  let finalScope := scopeAfterBody.clear_intersection arg_dict
  { feature := { f with
      last_result := run.results.getLast?.getD f.last_result,
      _scope := if f.retain then finalScope else f._scope },
    exec := executor,
    steps := inspectDriveTrace handleI run.results,
    rendered := run.results,
    finalScope := finalScope,
    fate := run.fate }

/-- Modelled from the spec: `jishaku.codeblocks.codeblock_converter` (not
under src/) — "raw source text, already stripped of any surrounding
code-fence markup".  A triple-backtick fence loses its language line and the
fences; single-backtick quoting is stripped; anything else passes through
verbatim. -/
def codeblock_converter (s : String) : String :=
  if "```".data.isPrefixOf s.data && "```".data.isSuffixOf s.data && decide (6 ≤ s.length) then
    let inner := (s.drop 3).dropRight 3
    if inner.data.contains '\n' then
      String.mk ((inner.data.dropWhile (fun ch => ch != '\n')).drop 1)
    else inner
  else if "`".data.isPrefixOf s.data && "`".data.isSuffixOf s.data && decide (2 ≤ s.length) then
    (s.drop 1).dropRight 1
  else s

/-- Modelled from the external chat formatter (`box` from redbot): wraps text
in a fenced code block. -/
def box (text lang : String) : String := "```" ++ lang ++ "\n" ++ text ++ "\n```"

/-- Modelled from the spec: the REPL banner (python.py line 294) shows the
host Python version and platform, abstracted here as fixed placeholder
text. -/
def replBanner : String := "Python host-version on host-platform"

/-- An event the REPL session loop reacts to: the 10-minute idle timeout
firing, or a matching chat message arriving (its raw content, the message
object bound as `message`/`msg`, and the executor drive its execution
produces). -/
inductive ReplEvent
  | timeout
  | msg (content : String) (msgVal : Val) (run : ExecRun)

/-- The record of one executed REPL iteration: the executor constructed for
it, its consumer-loop trace, and the scope value after that iteration's
`finally` clause cleared the argument dict keys. -/
structure ReplIter where
  exec : AsyncCodeExecutorArgs
  steps : List DriveStep
  scopeAfter : Scope
deriving DecidableEq, Repr

/-- How a run of the REPL command left the session loop. -/
inductive ReplStatus
  | alreadyRunning
  | exited
  | awaitingInput
deriving DecidableEq, Repr

/-- Everything observable about a run of `jsk repl` over a list of events. -/
structure ReplOutcome where
  feature : PythonFeature
  sent : List String
  iters : List ReplIter
  status : ReplStatus
  scope : Scope
  argDict : VarDict
  convertables : List (String × String)
deriving DecidableEq, Repr

/-- The REPL session `while True` loop (python.py lines 304-337).  A timeout
announces "Exiting...", removes the channel marker and breaks; `ext()` or
`quit()` do the same and return; `exit` or `quit` only prompt for call
parentheses; anything else is bound as `message`/`msg`, executed with the
session's convertables, and the iteration's `finally` clears the argument
dict keys from the scope. -/
def jsk_repl_loop (handle : Val → Val) (conv : List (String × String)) (chan : Nat)
    (f : PythonFeature) (argDict : VarDict) (scope : Scope)
    (sent : List String) (iters : List ReplIter) :
    List ReplEvent → ReplOutcome
  | [] => ⟨f, sent, iters, ReplStatus.awaitingInput, scope, argDict, conv⟩
  | ReplEvent.timeout :: _ =>
      ⟨{ f with repl_sessions := f.repl_sessions.erase chan },
       sent ++ ["Exiting..."], iters, ReplStatus.exited, scope, argDict, conv⟩
  | ReplEvent.msg c v run :: rest =>
      let content := codeblock_converter c
      if content = "ext()" ∨ content = "quit()" then
        ⟨{ f with repl_sessions := f.repl_sessions.erase chan },
         sent ++ ["Exiting..."], iters, ReplStatus.exited, scope, argDict, conv⟩
      else if content = "exit" ∨ content = "quit" then
        jsk_repl_loop handle conv chan f argDict scope
          (sent ++ ["Use `" ++ content ++ "()` to exit."]) iters rest
      else
        let d := (argDict.set "message" v).set "msg" v
        let scopeFinal := (run.codeEffect (scope.update d)).clear_intersection d
        let it : ReplIter := ⟨⟨content, d, conv⟩, pyDriveTrace handle run.results, scopeFinal⟩
        jsk_repl_loop handle conv chan
          { f with
            last_result := lastResultAfter f.last_result run.results,
            _scope := if f.retain then scopeFinal else f._scope }
          d scopeFinal sent (iters ++ [it]) rest

/-- The `jsk repl` command (python.py lines 274-337): builds the session arg
dict and convertables once, refuses a channel that already has a session,
otherwise registers the channel marker, sends the banner and enters the
loop. -/
def jsk_repl (f : PythonFeature) (ctx : Ctx) (handle : Val → Val)
    (events : List ReplEvent) : ReplOutcome :=
  let p := jsk_python_get_convertables f ctx
  let scope := f.scope
  if ctx.channelId ∈ f.repl_sessions then
    ⟨f, ["Already running an interactive shell in this channel. Use `exit()` or `quit()` or exit."],
     [], ReplStatus.alreadyRunning, scope, p.1, p.2⟩
  else
    jsk_repl_loop handle p.2 ctx.channelId
      { f with repl_sessions := ctx.channelId :: f.repl_sessions }
      p.1 scope [box replBanner "py"] [] events

/-- A Running Task of the registry (root_command.py / the feature baseclass):
its stable index and a handle identifying the underlying asyncio task. -/
structure RunningTask where
  index : Nat
  handleId : Nat
deriving DecidableEq, Repr

/-- The `index` argument of `jsk cancel`: an int or a string literal. -/
inductive CancelIndex
  | int (i : Int)
  | str (s : String)
deriving DecidableEq, Repr

/-- The reply of `jsk cancel`: a sent message, or the `BadArgument` raised for
an unrecognized string literal. -/
inductive CancelResult
  | sent (msg : String)
  | badArgument
deriving DecidableEq, Repr

/-- Everything observable about a run of `jsk cancel`: the registry
afterwards, the handles whose cancellation was requested, and the reply. -/
structure CancelOutcome where
  tasks : List RunningTask
  cancelled : List Nat
  response : CancelResult
deriving DecidableEq, Repr

/-- The `jsk cancel` command (root_command.py lines 222-257).  Empty registry
→ "No tasks to cancel."; "~" → cancel every task and clear; another string →
`BadArgument`; -1 → pop and cancel the most recent task; otherwise find the
task with that index, remove and cancel it, or reply "Unknown task." leaving
the registry unchanged.  The display suffix of the confirmation message
(command name, timestamp) is abstracted away. -/
def jsk_cancel (tasks : List RunningTask) (index : CancelIndex) : CancelOutcome :=
  if tasks.isEmpty then ⟨tasks, [], CancelResult.sent "No tasks to cancel."⟩
  else if index = CancelIndex.str "~" then
    ⟨[], tasks.map (·.handleId),
     CancelResult.sent ("Cancelled " ++ toString tasks.length ++ " tasks.")⟩
  else match index with
  | CancelIndex.str _ => ⟨tasks, [], CancelResult.badArgument⟩
  | CancelIndex.int i =>
    if i = -1 then
      match tasks.getLast? with
      | some t => ⟨tasks.dropLast, [t.handleId],
                   CancelResult.sent ("Cancelled task " ++ toString t.index ++ ".")⟩
      | none => ⟨tasks, [], CancelResult.sent "No tasks to cancel."⟩
    else
      match tasks.find? (fun t => (t.index : Int) == i) with
      | some t => ⟨tasks.erase t, [t.handleId],
                   CancelResult.sent ("Cancelled task " ++ toString t.index ++ ".")⟩
      | none => ⟨tasks, [], CancelResult.sent "Unknown task."⟩

/-- The shape every executed REPL iteration record has: its executor was
constructed with the session's convertables and an argument dict ending in the
`message`/`msg` writes, its loop trace is a `pyDriveTrace`, and its final
scope is the body's scope with that argument dict's keys cleared. -/
def ReplIterShape (handle : Val → Val) (conv : List (String × String))
    (it : ReplIter) : Prop :=
  ∃ (src : String) (v : Val) (d0 : VarDict) (eff : Scope → Scope)
    (rs : List Val) (s0 : Scope),
    it = ReplIter.mk
      (AsyncCodeExecutorArgs.mk src ((d0.set "message" v).set "msg" v) conv)
      (pyDriveTrace handle rs)
      ((eff (s0.update ((d0.set "message" v).set "msg" v))).clear_intersection
        ((d0.set "message" v).set "msg" v))

/-- Helper: `find?` is unchanged by filtering with a predicate implied by the
search predicate. -/
theorem find?_filter_of_imp {α : Type} (p q : α → Bool) (l : List α)
    (h : ∀ x, p x = true → q x = true) :
    (l.filter q).find? p = l.find? p := by
  induction l with
  | nil => rfl
  | cons a l ih =>
    rw [List.filter_cons]
    by_cases hq : q a = true
    · rw [if_pos hq]
      by_cases hp : p a = true
      · rw [List.find?_cons_of_pos _ hp, List.find?_cons_of_pos _ hp]
      · rw [List.find?_cons_of_neg _ hp, List.find?_cons_of_neg _ hp, ih]
    · have hp : ¬ p a = true := fun hpa => hq (h a hpa)
      rw [if_neg hq, List.find?_cons_of_neg _ hp, ih]

/-- Helper: reading back the key just written into a dict gives the written
value. -/
theorem VarDict.lookup_set (d : VarDict) (k : String) (v : Val) :
    VarDict.lookup (VarDict.set d k v) k = some v := by
  unfold VarDict.lookup VarDict.set
  rw [List.reverse_append]
  simp [List.find?]

/-- Helper: writing one key does not change the value read at another key. -/
theorem VarDict.lookup_set_ne (d : VarDict) (k k' : String) (v : Val)
    (h : k' ≠ k) :
    VarDict.lookup (VarDict.set d k' v) k = VarDict.lookup d k := by
  unfold VarDict.lookup VarDict.set
  rw [List.reverse_append]
  rw [show ([((k', v) : String × Val)]).reverse = [(k', v)] from rfl]
  rw [List.singleton_append]
  rw [List.find?_cons_of_neg]
  · rw [← List.filter_reverse, find?_filter_of_imp]
    intro x hx
    rw [beq_iff_eq] at hx
    rw [hx]
    exact bne_iff_ne.mpr (Ne.symm h)
  · simp [h]

/-- Helper: after `clear_intersection`, every key of the cleared bindings is
absent from the scope. -/
theorem lookup_clear_intersection (s : Scope) (b : VarDict) (k : String)
    (h : k ∈ VarDict.keys b) :
    Scope.lookup (Scope.clear_intersection s b) k = none := by
  unfold Scope.lookup Scope.clear_intersection VarDict.lookup
  rw [Option.map_eq_none', List.find?_eq_none]
  intro x hx hxk
  rw [List.mem_reverse, List.mem_filter] at hx
  rcases hx with ⟨-, hpred⟩
  rw [beq_iff_eq] at hxk
  subst hxk
  rw [Bool.not_eq_true'] at hpred
  have hcon : (VarDict.keys b).contains x.1 = true := List.elem_iff.mpr h
  rw [hcon] at hpred
  cases hpred

/-- Helper: in a py/repl consumer-loop trace, a `None` result has nothing sent
back for it. -/
theorem pyDriveTrace_none_step (handle : Val → Val) (rs : List Val) :
    ∀ s ∈ pyDriveTrace handle rs, s.result = Val.vnone → s.sentBack = none := by
  induction rs with
  | nil => intro s hs; cases hs
  | cons r rest ih =>
    intro s hs hres
    by_cases hr : r = Val.vnone
    · rw [pyDriveTrace, if_pos hr] at hs
      rcases List.mem_cons.mp hs with h | h
      · rw [h]
      · exact ih s h hres
    · rw [pyDriveTrace, if_neg hr] at hs
      rcases List.mem_cons.mp hs with h | h
      · rw [h] at hres ⊢
        exact absurd hres hr
      · exact ih s h hres

/-- Helper: every non-`None` result of the sequence appears in the trace paired
with the renderer's return value as its continuation. -/
theorem pyDriveTrace_mem (handle : Val → Val) (rs : List Val) (r : Val)
    (hr : r ∈ rs) (hne : r ≠ Val.vnone) :
    DriveStep.mk r (some (handle r)) ∈ pyDriveTrace handle rs := by
  induction rs with
  | nil => cases hr
  | cons a rest ih =>
    rcases List.mem_cons.mp hr with h | h
    · subst h
      rw [pyDriveTrace, if_neg hne]
      exact List.mem_cons_self _ _
    · by_cases ha : a = Val.vnone
      · rw [pyDriveTrace, if_pos ha]
        exact List.mem_cons_of_mem _ (ih h)
      · rw [pyDriveTrace, if_neg ha]
        exact List.mem_cons_of_mem _ (ih h)

/-- Helper: the consumer-loop trace distributes over list append. -/
theorem pyDriveTrace_append (handle : Val → Val) (a b : List Val) :
    pyDriveTrace handle (a ++ b) = pyDriveTrace handle a ++ pyDriveTrace handle b := by
  induction a with
  | nil => rfl
  | cons r rest ih =>
    by_cases hr : r = Val.vnone
    · rw [List.cons_append, pyDriveTrace, if_pos hr, pyDriveTrace, if_pos hr,
        List.cons_append, ih]
    · rw [List.cons_append, pyDriveTrace, if_neg hr, pyDriveTrace, if_neg hr,
        List.cons_append, ih]

/-- Helper: a sequence consisting solely of `None` results leaves the stored
last result untouched. -/
theorem lastResultAfter_all_none (init : Val) (rs : List Val)
    (h : ∀ r ∈ rs, r = Val.vnone) :
    lastResultAfter init rs = init := by
  induction rs generalizing init with
  | nil => rfl
  | cons r rest ih =>
    rw [lastResultAfter, List.foldl_cons, if_pos (h r (List.mem_cons_self _ _))]
    exact ih init (fun x hx => h x (List.mem_cons_of_mem _ hx))

/-- Helper: every iteration record accumulated by the REPL session loop has
the `ReplIterShape` shape, provided the accumulator it starts from does. -/
theorem jsk_repl_loop_iters_shape (handle : Val → Val)
    (conv : List (String × String)) (chan : Nat) :
    ∀ (events : List ReplEvent) (f : PythonFeature) (argDict : VarDict)
      (scope : Scope) (sent : List String) (iters : List ReplIter),
      (∀ it ∈ iters, ReplIterShape handle conv it) →
      ∀ it ∈ (jsk_repl_loop handle conv chan f argDict scope sent iters events).iters,
        ReplIterShape handle conv it := by
  intro events
  induction events with
  | nil =>
    intro f a s sent iters h it hit
    exact h it hit
  | cons e rest ih =>
    intro f a s sent iters h it hit
    cases e with
    | timeout => exact h it hit
    | msg c v run =>
      rw [jsk_repl_loop] at hit
      by_cases h1 : codeblock_converter c = "ext()" ∨ codeblock_converter c = "quit()"
      · rw [if_pos h1] at hit
        exact h it hit
      · rw [if_neg h1] at hit
        by_cases h2 : codeblock_converter c = "exit" ∨ codeblock_converter c = "quit"
        · rw [if_pos h2] at hit
          exact ih _ _ _ _ _ h it hit
        · rw [if_neg h2] at hit
          refine ih _ _ _ _ _ ?_ it hit
          intro it' hit'
          rcases List.mem_append.mp hit' with h' | h'
          · exact h it' h'
          · rw [List.mem_singleton.mp h']
            exact ⟨codeblock_converter c, v, a, run.codeEffect, run.results, s, rfl⟩

/-- Helper: every iteration record of a `jsk repl` run has the
`ReplIterShape` shape, with the session's convertables. -/
theorem jsk_repl_iters_shape (f : PythonFeature) (ctx : Ctx) (handle : Val → Val)
    (events : List ReplEvent) :
    ∀ it ∈ (jsk_repl f ctx handle events).iters,
      ReplIterShape handle (jsk_python_get_convertables f ctx).2 it := by
  intro it hit
  rw [jsk_repl] at hit
  by_cases h : ctx.channelId ∈ f.repl_sessions
  · rw [if_pos h] at hit
    cases hit
  · rw [if_neg h] at hit
    exact jsk_repl_loop_iters_shape _ _ _ _ _ _ _ _ _ (fun it' hit' => absurd hit' (List.not_mem_nil it')) it hit

/-- C6: whenever the retain flag is true the `scope` property returns the one
stored scope of the feature instance, and whenever it is false it returns a
newly constructed (empty) `Scope`. -/
theorem scope_property_retain_spec (f : PythonFeature) :
    (f.retain = true → f.scope = f._scope) ∧
    (f.retain = false → f.scope = Scope.mk []) := by
  constructor <;> intro h <;> simp [PythonFeature.scope, h]

/-- Witness for `scope_property_retain_spec` at concrete feature states. -/
theorem scope_property_retain_spec_witness :
    (PythonFeature.mk (Scope.mk [("x", Val.vint 1)]) true Val.vnone []).scope
        = Scope.mk [("x", Val.vint 1)] ∧
    (PythonFeature.mk (Scope.mk [("x", Val.vint 1)]) false Val.vnone []).scope
        = Scope.mk [] :=
  ⟨(scope_property_retain_spec _).1 rfl, (scope_property_retain_spec _).2 rfl⟩

/-- C4: toggling retention off→on installs a newly constructed empty scope as
the stored scope; toggling on→off does not persist the last scope for future
use (reads of the property give a fresh scope); and toggling off then on
always yields a scope with no bindings from before the toggle. -/
theorem retain_toggle_fresh_scope (f : PythonFeature) :
    (f.retain = false → ((jsk_retain f (some true)).1)._scope = Scope.mk []) ∧
    (f.retain = true → ((jsk_retain f (some false)).1).scope = Scope.mk []) ∧
    ((jsk_retain (jsk_retain f (some false)).1 (some true)).1).scope = Scope.mk [] := by
  refine ⟨fun h => ?_, fun h => ?_, ?_⟩
  · simp [jsk_retain, h]
  · simp [jsk_retain, h, PythonFeature.scope]
  · by_cases h : f.retain <;>
      simp [jsk_retain, h, PythonFeature.scope]

/-- Witness for `retain_toggle_fresh_scope` at a concrete feature state whose
stored scope is nonempty. -/
theorem retain_toggle_fresh_scope_witness :
    ((jsk_retain (PythonFeature.mk (Scope.mk [("x", Val.vint 1)]) false Val.vnone [])
        (some true)).1)._scope = Scope.mk [] ∧
    ((jsk_retain (PythonFeature.mk (Scope.mk [("x", Val.vint 1)]) true Val.vnone [])
        (some false)).1).scope = Scope.mk [] ∧
    ((jsk_retain (jsk_retain
        (PythonFeature.mk (Scope.mk [("x", Val.vint 1)]) true Val.vnone [])
        (some false)).1 (some true)).1).scope = Scope.mk [] :=
  ⟨(retain_toggle_fresh_scope _).1 rfl,
   (retain_toggle_fresh_scope _).2.1 rfl,
   (retain_toggle_fresh_scope _).2.2⟩

/-- C1: for the py command, the py_inspect command and every executed REPL
iteration, `clear_intersection(arg_dict)` runs in a `finally` clause, i.e. on
every exit path of the drive (normal completion, propagated exception,
cooperative cancellation), so afterwards no key of that invocation's argument
dict remains bound in the scope that was used — including the retained stored
scope. -/
theorem scope_cleanup_every_exit_path
    (f : PythonFeature) (ctx : Ctx) (argument : String) (handle : Val → Val)
    (results : List Val) (eff : Scope → Scope) (fate : Fate) (k : String)
    (events : List ReplEvent) :
    (k ∈ VarDict.keys (jsk_python f ctx argument handle ⟨results, eff, fate⟩).exec.argDict →
      Scope.lookup (jsk_python f ctx argument handle ⟨results, eff, fate⟩).finalScope k = none) ∧
    (f.retain = true →
      k ∈ VarDict.keys (jsk_python f ctx argument handle ⟨results, eff, fate⟩).exec.argDict →
      Scope.lookup (jsk_python f ctx argument handle ⟨results, eff, fate⟩).feature._scope k = none) ∧
    (k ∈ VarDict.keys (jsk_python_inspect f ctx argument handle ⟨results, eff, fate⟩).exec.argDict →
      Scope.lookup (jsk_python_inspect f ctx argument handle ⟨results, eff, fate⟩).finalScope k = none) ∧
    (∀ it ∈ (jsk_repl f ctx handle events).iters,
      k ∈ VarDict.keys it.exec.argDict → Scope.lookup it.scopeAfter k = none) := by
  refine ⟨fun hk => ?_, fun hr hk => ?_, fun hk => ?_, fun it hit hk => ?_⟩
  · exact lookup_clear_intersection _ _ _ hk
  · show Scope.lookup (if f.retain then _ else f._scope) k = none
    rw [hr]
    exact lookup_clear_intersection _ _ _ hk
  · exact lookup_clear_intersection _ _ _ hk
  · obtain ⟨src, v, d0, eff', rs, s0, rfl⟩ := jsk_repl_iters_shape f ctx handle events it hit
    exact lookup_clear_intersection _ _ _ hk

/-- Witness for `scope_cleanup_every_exit_path`: a concrete retained feature,
a raised py drive, a cancelled py_inspect drive, and a one-message REPL
session; the key `_` of the argument dict is gone from every final scope. -/
theorem scope_cleanup_every_exit_path_witness :
    Scope.lookup (jsk_python
        (PythonFeature.mk (Scope.mk [("keep", Val.vint 9)]) true Val.vnone [])
        (Ctx.mk [] [] [] [] 5) "x = 1" (fun _ => Val.obj 42)
        (ExecRun.mk [] (fun s => s) Fate.raised)).finalScope "_" = none ∧
    Scope.lookup (jsk_python
        (PythonFeature.mk (Scope.mk [("keep", Val.vint 9)]) true Val.vnone [])
        (Ctx.mk [] [] [] [] 5) "x = 1" (fun _ => Val.obj 42)
        (ExecRun.mk [] (fun s => s) Fate.raised)).feature._scope "_" = none ∧
    Scope.lookup (jsk_python_inspect
        (PythonFeature.mk (Scope.mk [("keep", Val.vint 9)]) true Val.vnone [])
        (Ctx.mk [] [] [] [] 5) "x = 1" (fun _ => Val.obj 42)
        (ExecRun.mk [] (fun s => s) Fate.cancelled)).finalScope "_" = none ∧
    ((jsk_repl (PythonFeature.mk (Scope.mk [("keep", Val.vint 9)]) true Val.vnone [])
        (Ctx.mk [] [] [] [] 5) (fun _ => Val.obj 42)
        [ReplEvent.msg "x" (Val.obj 3) (ExecRun.mk [Val.vint 2] (fun s => s) Fate.cancelled)]).iters.head?.map
        (fun it => Scope.lookup it.scopeAfter "_")) = some none := by
  refine ⟨?_, ?_, ?_, ?_⟩
  · exact (scope_cleanup_every_exit_path
      (PythonFeature.mk (Scope.mk [("keep", Val.vint 9)]) true Val.vnone [])
      (Ctx.mk [] [] [] [] 5) "x = 1" (fun _ => Val.obj 42)
      [] (fun s => s) Fate.raised "_" []).1 (by decide)
  · exact (scope_cleanup_every_exit_path
      (PythonFeature.mk (Scope.mk [("keep", Val.vint 9)]) true Val.vnone [])
      (Ctx.mk [] [] [] [] 5) "x = 1" (fun _ => Val.obj 42)
      [] (fun s => s) Fate.raised "_" []).2.1 rfl (by decide)
  · exact (scope_cleanup_every_exit_path
      (PythonFeature.mk (Scope.mk [("keep", Val.vint 9)]) true Val.vnone [])
      (Ctx.mk [] [] [] [] 5) "x = 1" (fun _ => Val.obj 42)
      [] (fun s => s) Fate.cancelled "_" []).2.2.1 (by decide)
  · have h4 := (scope_cleanup_every_exit_path
      (PythonFeature.mk (Scope.mk [("keep", Val.vint 9)]) true Val.vnone [])
      (Ctx.mk [] [] [] [] 5) "x" (fun _ => Val.obj 42)
      [] (fun s => s) Fate.normal "_"
      [ReplEvent.msg "x" (Val.obj 3) (ExecRun.mk [Val.vint 2] (fun s => s) Fate.cancelled)]).2.2.2
      (ReplIter.mk
        (AsyncCodeExecutorArgs.mk "x"
          [("_", Val.vnone), ("message", Val.obj 3), ("msg", Val.obj 3)] [])
        [DriveStep.mk (Val.vint 2) (some (Val.obj 42))]
        (Scope.mk [("keep", Val.vint 9)]))
      (by decide) (by decide)
    show some (Scope.lookup (Scope.mk [("keep", Val.vint 9)]) "_") = some none
    rw [h4]

/-- C2 counterexample: with one user mention in the message, the py command
constructs its `AsyncCodeExecutor` with an empty substitution table and with
no synthetic mention binding in its argument dict, even though the
mention-derived table for that context is nonempty — so the py command does
not supply the table the claim says it supplies. -/
theorem py_mention_table_counterexample :
    (jsk_python (PythonFeature.mk (Scope.mk []) false Val.vnone [])
        (Ctx.mk [] [Entity.mk 7 "<@7>"] [] [] 5) "_ + 1" (fun _ => Val.vnone)
        (ExecRun.mk [] (fun s => s) Fate.normal)).exec.convertables = [] ∧
    (jsk_python_get_convertables (PythonFeature.mk (Scope.mk []) false Val.vnone [])
        (Ctx.mk [] [Entity.mk 7 "<@7>"] [] [] 5)).2 = [("<@7>", "__user_mention_0")] ∧
    VarDict.lookup (jsk_python (PythonFeature.mk (Scope.mk []) false Val.vnone [])
        (Ctx.mk [] [Entity.mk 7 "<@7>"] [] [] 5) "_ + 1" (fun _ => Val.vnone)
        (ExecRun.mk [] (fun s => s) Fate.normal)).exec.argDict "__user_mention_0" = none := by
  exact ⟨rfl, by decide, by decide⟩

/-- C2 amended: only the repl session supplies the mention-derived
literal→identifier substitution table to the `AsyncCodeExecutor` (every
executed iteration's executor carries the session's convertables, and the
synthetic name is bound to the mentioned entity in the argument dict handed
to the executor); the py command constructs its executor with an empty table
and without mention bindings. -/
theorem convertables_supplied_only_by_repl
    (f : PythonFeature) (ctx : Ctx) (argument : String) (handle : Val → Val)
    (run : ExecRun) (events : List ReplEvent) (u : Entity)
    (c : String) (v : Val) (runm : ExecRun) :
    (jsk_python f ctx argument handle run).exec.convertables = [] ∧
    (∀ it ∈ (jsk_repl f ctx handle events).iters,
        it.exec.convertables = (jsk_python_get_convertables f ctx).2) ∧
    (ctx.mentions = [u] → ctx.channel_mentions = [] → ctx.role_mentions = [] →
        (jsk_python_get_convertables f ctx).2 = [(u.mention, "__user_mention_0")] ∧
        VarDict.lookup (jsk_python_get_convertables f ctx).1 "__user_mention_0"
          = some (Val.obj u.eid)) ∧
    (ctx.channelId ∉ f.repl_sessions →
      ¬(codeblock_converter c = "ext()" ∨ codeblock_converter c = "quit()") →
      ¬(codeblock_converter c = "exit" ∨ codeblock_converter c = "quit") →
      ctx.mentions = [u] → ctx.channel_mentions = [] → ctx.role_mentions = [] →
        (jsk_repl f ctx handle [ReplEvent.msg c v runm]).iters.map
            (fun it => VarDict.lookup it.exec.argDict "__user_mention_0")
          = [some (Val.obj u.eid)]) := by
  refine ⟨rfl, fun it hit => ?_, fun h1 h2 h3 => ?_, fun hchan hno1 hno2 h1 h2 h3 => ?_⟩
  · obtain ⟨src, v', d0, eff', rs, s0, rfl⟩ := jsk_repl_iters_shape f ctx handle events it hit
    rfl
  · have e : jsk_python_get_convertables f ctx
        = (((get_var_dict_from_ctx ctx).set "_" f.last_result).set "__user_mention_0"
            (Val.obj u.eid),
           [(u.mention, "__user_mention_0")]) := by
      unfold jsk_python_get_convertables
      rw [h1, h2, h3]
      rfl
    refine ⟨?_, ?_⟩
    · rw [e]
    · rw [e]
      exact VarDict.lookup_set _ _ _
  · have e : jsk_python_get_convertables f ctx
        = (((get_var_dict_from_ctx ctx).set "_" f.last_result).set "__user_mention_0"
            (Val.obj u.eid),
           [(u.mention, "__user_mention_0")]) := by
      unfold jsk_python_get_convertables
      rw [h1, h2, h3]
      rfl
    simp only [jsk_repl]
    rw [if_neg hchan]
    simp only [jsk_repl_loop]
    rw [if_neg hno1, if_neg hno2]
    simp only [jsk_repl_loop, List.nil_append, List.map_cons, List.map_nil]
    rw [e]
    rw [VarDict.lookup_set_ne _ _ _ _ (by decide), VarDict.lookup_set_ne _ _ _ _ (by decide),
      VarDict.lookup_set]

/-- Witness for `convertables_supplied_only_by_repl` at a concrete context
with one user mention and a single executed REPL message. -/
theorem convertables_supplied_only_by_repl_witness :
    (jsk_python (PythonFeature.mk (Scope.mk []) false Val.vnone [])
        (Ctx.mk [] [Entity.mk 7 "<@7>"] [] [] 5) "y" (fun _ => Val.vnone)
        (ExecRun.mk [] (fun s => s) Fate.normal)).exec.convertables = [] ∧
    (jsk_python_get_convertables (PythonFeature.mk (Scope.mk []) false Val.vnone [])
        (Ctx.mk [] [Entity.mk 7 "<@7>"] [] [] 5)).2 = [("<@7>", "__user_mention_0")] ∧
    VarDict.lookup (jsk_python_get_convertables (PythonFeature.mk (Scope.mk []) false Val.vnone [])
        (Ctx.mk [] [Entity.mk 7 "<@7>"] [] [] 5)).1 "__user_mention_0" = some (Val.obj 7) ∧
    (jsk_repl (PythonFeature.mk (Scope.mk []) false Val.vnone [])
        (Ctx.mk [] [Entity.mk 7 "<@7>"] [] [] 5) (fun _ => Val.vnone)
        [ReplEvent.msg "y" Val.vnone (ExecRun.mk [] (fun s => s) Fate.normal)]).iters.map
        (fun it => VarDict.lookup it.exec.argDict "__user_mention_0")
      = [some (Val.obj 7)] := by
  refine ⟨?_, ?_, ?_, ?_⟩
  · exact (convertables_supplied_only_by_repl (PythonFeature.mk (Scope.mk []) false Val.vnone [])
      (Ctx.mk [] [Entity.mk 7 "<@7>"] [] [] 5) "y" (fun _ => Val.vnone)
      (ExecRun.mk [] (fun s => s) Fate.normal) [] (Entity.mk 7 "<@7>") "y" Val.vnone
      (ExecRun.mk [] (fun s => s) Fate.normal)).1
  · exact ((convertables_supplied_only_by_repl (PythonFeature.mk (Scope.mk []) false Val.vnone [])
      (Ctx.mk [] [Entity.mk 7 "<@7>"] [] [] 5) "y" (fun _ => Val.vnone)
      (ExecRun.mk [] (fun s => s) Fate.normal) [] (Entity.mk 7 "<@7>") "y" Val.vnone
      (ExecRun.mk [] (fun s => s) Fate.normal)).2.2.1 rfl rfl rfl).1
  · exact ((convertables_supplied_only_by_repl (PythonFeature.mk (Scope.mk []) false Val.vnone [])
      (Ctx.mk [] [Entity.mk 7 "<@7>"] [] [] 5) "y" (fun _ => Val.vnone)
      (ExecRun.mk [] (fun s => s) Fate.normal) [] (Entity.mk 7 "<@7>") "y" Val.vnone
      (ExecRun.mk [] (fun s => s) Fate.normal)).2.2.1 rfl rfl rfl).2
  · exact (convertables_supplied_only_by_repl (PythonFeature.mk (Scope.mk []) false Val.vnone [])
      (Ctx.mk [] [Entity.mk 7 "<@7>"] [] [] 5) "y" (fun _ => Val.vnone)
      (ExecRun.mk [] (fun s => s) Fate.normal) [] (Entity.mk 7 "<@7>") "y" Val.vnone
      (ExecRun.mk [] (fun s => s) Fate.normal)).2.2.2 (by decide) (by decide) (by decide)
      rfl rfl rfl

/-- C3 counterexample: the py_inspect command does not skip a `None` result —
it updates the stored last result to `None` and renders an inspection for it,
contradicting the claim that every command treats `None` as "no visible
output". -/
theorem inspect_renders_none_counterexample :
    (jsk_python_inspect (PythonFeature.mk (Scope.mk []) false (Val.vint 5) [])
        (Ctx.mk [] [] [] [] 5) "None" (fun _ => Val.obj 42)
        (ExecRun.mk [Val.vnone] (fun s => s) Fate.normal)).feature.last_result = Val.vnone ∧
    (jsk_python_inspect (PythonFeature.mk (Scope.mk []) false (Val.vint 5) [])
        (Ctx.mk [] [] [] [] 5) "None" (fun _ => Val.obj 42)
        (ExecRun.mk [Val.vnone] (fun s => s) Fate.normal)).feature.last_result ≠ Val.vint 5 ∧
    (jsk_python_inspect (PythonFeature.mk (Scope.mk []) false (Val.vint 5) [])
        (Ctx.mk [] [] [] [] 5) "None" (fun _ => Val.obj 42)
        (ExecRun.mk [Val.vnone] (fun s => s) Fate.normal)).rendered = [Val.vnone] ∧
    (jsk_python_inspect (PythonFeature.mk (Scope.mk []) false (Val.vint 5) [])
        (Ctx.mk [] [] [] [] 5) "None" (fun _ => Val.obj 42)
        (ExecRun.mk [Val.vnone] (fun s => s) Fate.normal)).steps
      = [DriveStep.mk Val.vnone (some (Val.obj 42))] := by
  exact ⟨rfl, by decide, rfl, rfl⟩

/-- C3 amended: `None` results are treated as "no visible output" by the py
command and by every REPL iteration — nothing is sent back for them, they are
not handed to the renderer, they leave the stored last result untouched, and
they are not an error — but py_inspect renders every result including `None`
and unconditionally updates the stored last result. -/
theorem none_results_skipped_in_py_and_repl
    (f : PythonFeature) (ctx : Ctx) (argument : String)
    (handle handleI : Val → Val) (run : ExecRun) (events : List ReplEvent) :
    (∀ s ∈ (jsk_python f ctx argument handle run).steps,
        s.result = Val.vnone → s.sentBack = none) ∧
    Val.vnone ∉ (jsk_python f ctx argument handle run).rendered ∧
    ((∀ r ∈ run.results, r = Val.vnone) →
        (jsk_python f ctx argument handle run).feature.last_result = f.last_result) ∧
    (jsk_python f ctx argument handle run).fate = run.fate ∧
    (∀ it ∈ (jsk_repl f ctx handle events).iters, ∀ s ∈ it.steps,
        s.result = Val.vnone → s.sentBack = none) ∧
    (jsk_python_inspect f ctx argument handleI run).rendered = run.results ∧
    (jsk_python_inspect f ctx argument handleI run).feature.last_result
        = run.results.getLast?.getD f.last_result := by
  refine ⟨pyDriveTrace_none_step handle run.results, ?_, fun hall => ?_, rfl,
    fun it hit => ?_, rfl, rfl⟩
  · intro hmem
    have hmem' : Val.vnone ∈ run.results.filter (fun r => r != Val.vnone) := hmem
    rcases List.mem_filter.mp hmem' with ⟨-, hp⟩
    simp at hp
  · exact lastResultAfter_all_none f.last_result run.results hall
  · obtain ⟨src, v', d0, eff', rs, s0, rfl⟩ := jsk_repl_iters_shape f ctx handle events it hit
    exact pyDriveTrace_none_step handle rs

/-- Witness for `none_results_skipped_in_py_and_repl`: a py run producing only
`None` keeps the previous last result, renders nothing, and sends nothing
back; a REPL iteration producing `None` likewise sends nothing back. -/
theorem none_results_skipped_in_py_and_repl_witness :
    (jsk_python (PythonFeature.mk (Scope.mk []) false (Val.vint 5) [])
        (Ctx.mk [] [] [] [] 5) "None" (fun _ => Val.obj 42)
        (ExecRun.mk [Val.vnone] (fun s => s) Fate.normal)).feature.last_result = Val.vint 5 ∧
    Val.vnone ∉ (jsk_python (PythonFeature.mk (Scope.mk []) false (Val.vint 5) [])
        (Ctx.mk [] [] [] [] 5) "None" (fun _ => Val.obj 42)
        (ExecRun.mk [Val.vnone] (fun s => s) Fate.normal)).rendered ∧
    (DriveStep.mk Val.vnone none).sentBack = none := by
  refine ⟨?_, ?_, ?_⟩
  · exact (none_results_skipped_in_py_and_repl (PythonFeature.mk (Scope.mk []) false (Val.vint 5) [])
      (Ctx.mk [] [] [] [] 5) "None" (fun _ => Val.obj 42) (fun _ => Val.obj 42)
      (ExecRun.mk [Val.vnone] (fun s => s) Fate.normal) []).2.2.1 (by decide)
  · exact (none_results_skipped_in_py_and_repl (PythonFeature.mk (Scope.mk []) false (Val.vint 5) [])
      (Ctx.mk [] [] [] [] 5) "None" (fun _ => Val.obj 42) (fun _ => Val.obj 42)
      (ExecRun.mk [Val.vnone] (fun s => s) Fate.normal) []).2.1
  · exact (none_results_skipped_in_py_and_repl (PythonFeature.mk (Scope.mk []) false (Val.vint 5) [])
      (Ctx.mk [] [] [] [] 5) "None" (fun _ => Val.obj 42) (fun _ => Val.obj 42)
      (ExecRun.mk [Val.vnone] (fun s => s) Fate.normal) []).1
      (DriveStep.mk Val.vnone none) (by decide) rfl

/-- C5: the py command exposes the stored last result as `_` in the argument
dict; every handled (non-`None`) produced result is paired in the loop trace
with the renderer's return value as the one-shot continuation supplied via
`send`; and that continuation value becomes the reserved last-result binding
for the next top-level expression once the suspended executor resumes. -/
theorem renderer_return_is_continuation
    (f : PythonFeature) (ctx : Ctx) (argument : String) (handle : Val → Val)
    (run : ExecRun) (pre : List Val) (r : Val) :
    VarDict.lookup (jsk_python f ctx argument handle run).exec.argDict "_"
        = some f.last_result ∧
    (∀ x ∈ run.results, x ≠ Val.vnone →
        DriveStep.mk x (some (handle x)) ∈ (jsk_python f ctx argument handle run).steps) ∧
    (r ≠ Val.vnone →
        underscoreAfter f.last_result
          (jsk_python f ctx argument handle
            (ExecRun.mk (pre ++ [r]) run.codeEffect run.fate)).steps
          = handle r) := by
  refine ⟨VarDict.lookup_set _ _ _, fun x hx hne => pyDriveTrace_mem handle run.results x hx hne,
    fun hr => ?_⟩
  have ht : pyDriveTrace handle [r] = [DriveStep.mk r (some (handle r))] := by
    rw [pyDriveTrace, if_neg hr]
    rfl
  show underscoreAfter f.last_result (pyDriveTrace handle (pre ++ [r])) = handle r
  rw [pyDriveTrace_append, ht]
  unfold underscoreAfter
  rw [List.foldl_append]
  rfl

/-- Witness for `renderer_return_is_continuation`: with a renderer returning
the message object `obj 42`, the produced result `2` is paired with `obj 42`
as its continuation, and `obj 42` is the reserved binding after the loop. -/
theorem renderer_return_is_continuation_witness :
    VarDict.lookup (jsk_python (PythonFeature.mk (Scope.mk []) false (Val.vint 5) [])
        (Ctx.mk [] [] [] [] 5) "1+1" (fun _ => Val.obj 42)
        (ExecRun.mk [Val.vnone, Val.vint 2] (fun s => s) Fate.normal)).exec.argDict "_"
      = some (Val.vint 5) ∧
    DriveStep.mk (Val.vint 2) (some (Val.obj 42))
      ∈ (jsk_python (PythonFeature.mk (Scope.mk []) false (Val.vint 5) [])
          (Ctx.mk [] [] [] [] 5) "1+1" (fun _ => Val.obj 42)
          (ExecRun.mk [Val.vnone, Val.vint 2] (fun s => s) Fate.normal)).steps ∧
    underscoreAfter (Val.vint 5)
        (jsk_python (PythonFeature.mk (Scope.mk []) false (Val.vint 5) [])
          (Ctx.mk [] [] [] [] 5) "1+1" (fun _ => Val.obj 42)
          (ExecRun.mk ([Val.vnone] ++ [Val.vint 2]) (fun s => s) Fate.normal)).steps
      = Val.obj 42 := by
  refine ⟨?_, ?_, ?_⟩
  · exact (renderer_return_is_continuation (PythonFeature.mk (Scope.mk []) false (Val.vint 5) [])
      (Ctx.mk [] [] [] [] 5) "1+1" (fun _ => Val.obj 42)
      (ExecRun.mk [Val.vnone, Val.vint 2] (fun s => s) Fate.normal) [Val.vnone] (Val.vint 2)).1
  · exact (renderer_return_is_continuation (PythonFeature.mk (Scope.mk []) false (Val.vint 5) [])
      (Ctx.mk [] [] [] [] 5) "1+1" (fun _ => Val.obj 42)
      (ExecRun.mk [Val.vnone, Val.vint 2] (fun s => s) Fate.normal) [Val.vnone] (Val.vint 2)).2.1
      (Val.vint 2) (by decide) (by decide)
  · exact (renderer_return_is_continuation (PythonFeature.mk (Scope.mk []) false (Val.vint 5) [])
      (Ctx.mk [] [] [] [] 5) "1+1" (fun _ => Val.obj 42)
      (ExecRun.mk [Val.vnone, Val.vint 2] (fun s => s) Fate.normal) [Val.vnone] (Val.vint 2)).2.2
      (by decide)

/-- C7: starting a REPL session registers the channel marker; when the wait
for the next message times out, the session announces "Exiting...", removes
the channel marker added at session start, and the loop terminates, executing
nothing further. -/
theorem repl_idle_timeout_teardown
    (f : PythonFeature) (ctx : Ctx) (handle : Val → Val) (rest : List ReplEvent)
    (h : ctx.channelId ∉ f.repl_sessions) :
    (jsk_repl f ctx handle []).feature.repl_sessions = ctx.channelId :: f.repl_sessions ∧
    (jsk_repl f ctx handle (ReplEvent.timeout :: rest)).status = ReplStatus.exited ∧
    (jsk_repl f ctx handle (ReplEvent.timeout :: rest)).sent.getLast? = some "Exiting..." ∧
    (jsk_repl f ctx handle (ReplEvent.timeout :: rest)).feature.repl_sessions
        = f.repl_sessions ∧
    ctx.channelId ∉ (jsk_repl f ctx handle (ReplEvent.timeout :: rest)).feature.repl_sessions ∧
    (jsk_repl f ctx handle (ReplEvent.timeout :: rest)).iters = [] := by
  have herase : (ctx.channelId :: f.repl_sessions).erase ctx.channelId = f.repl_sessions :=
    List.erase_cons_head _ _
  refine ⟨?_, ?_, ?_, ?_, ?_, ?_⟩ <;>
    simp only [jsk_repl, jsk_repl_loop, if_neg h] <;>
    simp [herase, h]

/-- Witness for `repl_idle_timeout_teardown` at a concrete feature and
channel. -/
theorem repl_idle_timeout_teardown_witness :
    (jsk_repl (PythonFeature.mk (Scope.mk []) false Val.vnone [3])
        (Ctx.mk [] [] [] [] 5) (fun _ => Val.vnone) []).feature.repl_sessions = [5, 3] ∧
    (jsk_repl (PythonFeature.mk (Scope.mk []) false Val.vnone [3])
        (Ctx.mk [] [] [] [] 5) (fun _ => Val.vnone) [ReplEvent.timeout]).status
      = ReplStatus.exited ∧
    (jsk_repl (PythonFeature.mk (Scope.mk []) false Val.vnone [3])
        (Ctx.mk [] [] [] [] 5) (fun _ => Val.vnone) [ReplEvent.timeout]).sent.getLast?
      = some "Exiting..." ∧
    (jsk_repl (PythonFeature.mk (Scope.mk []) false Val.vnone [3])
        (Ctx.mk [] [] [] [] 5) (fun _ => Val.vnone) [ReplEvent.timeout]).feature.repl_sessions
      = [3] := by
  have h := repl_idle_timeout_teardown (PythonFeature.mk (Scope.mk []) false Val.vnone [3])
    (Ctx.mk [] [] [] [] 5) (fun _ => Val.vnone) [] (by decide)
  exact ⟨h.1, h.2.1, h.2.2.1, h.2.2.2.1⟩

/-- C9: in a REPL session, only the exact converted inputs "ext()" and
"quit()" terminate the session and release the channel marker; "exit" and
"quit" only prompt to append call parentheses; and "exit()" — the very form
the session's messages advertise — is not recognized as an exit command and
is executed as Python source instead. -/
theorem repl_exit_recognition
    (f : PythonFeature) (ctx : Ctx) (handle : Val → Val) (v : Val) (run : ExecRun)
    (h : ctx.channelId ∉ f.repl_sessions) :
    (∀ c, c = "ext()" ∨ c = "quit()" →
        (jsk_repl f ctx handle [ReplEvent.msg c v run]).status = ReplStatus.exited ∧
        ctx.channelId ∉ (jsk_repl f ctx handle [ReplEvent.msg c v run]).feature.repl_sessions ∧
        (jsk_repl f ctx handle [ReplEvent.msg c v run]).iters = []) ∧
    (∀ c, c = "exit" ∨ c = "quit" →
        (jsk_repl f ctx handle [ReplEvent.msg c v run]).status = ReplStatus.awaitingInput ∧
        (jsk_repl f ctx handle [ReplEvent.msg c v run]).sent.getLast?
            = some ("Use `" ++ c ++ "()` to exit.") ∧
        (jsk_repl f ctx handle [ReplEvent.msg c v run]).iters = [] ∧
        ctx.channelId ∈ (jsk_repl f ctx handle [ReplEvent.msg c v run]).feature.repl_sessions) ∧
    ((jsk_repl f ctx handle [ReplEvent.msg "exit()" v run]).status = ReplStatus.awaitingInput ∧
     (jsk_repl f ctx handle [ReplEvent.msg "exit()" v run]).iters.map (fun it => it.exec.source)
        = ["exit()"] ∧
     ctx.channelId ∈ (jsk_repl f ctx handle [ReplEvent.msg "exit()" v run]).feature.repl_sessions) ∧
    (∀ c, ¬(codeblock_converter c = "ext()" ∨ codeblock_converter c = "quit()") →
        (jsk_repl f ctx handle [ReplEvent.msg c v run]).status = ReplStatus.awaitingInput ∧
        ctx.channelId ∈ (jsk_repl f ctx handle [ReplEvent.msg c v run]).feature.repl_sessions) := by
  have herase : (ctx.channelId :: f.repl_sessions).erase ctx.channelId = f.repl_sessions :=
    List.erase_cons_head _ _
  refine ⟨fun c hc => ?_, fun c hc => ?_, ?_, fun c hnc => ?_⟩
  · rcases hc with rfl | rfl <;>
      (refine ⟨?_, ?_, ?_⟩ <;>
        simp only [jsk_repl, jsk_repl_loop, if_neg h] <;>
        simp [herase, h, codeblock_converter])
  · rcases hc with rfl | rfl <;>
      (refine ⟨?_, ?_, ?_, ?_⟩ <;>
        simp only [jsk_repl, jsk_repl_loop, if_neg h] <;>
        simp [codeblock_converter])
  · refine ⟨?_, ?_, ?_⟩ <;>
      simp only [jsk_repl, jsk_repl_loop, if_neg h] <;>
      simp [codeblock_converter]
  · by_cases h2 : codeblock_converter c = "exit" ∨ codeblock_converter c = "quit"
    · simp only [jsk_repl, jsk_repl_loop, if_neg h]
      rw [if_neg hnc, if_pos h2]
      simp only [jsk_repl_loop]
      simp
    · simp only [jsk_repl, jsk_repl_loop, if_neg h]
      rw [if_neg hnc, if_neg h2]
      simp only [jsk_repl_loop]
      simp

/-- Witness for `repl_exit_recognition` at a concrete feature and channel:
"ext()" exits, "exit" only prompts, "exit()" is executed as source. -/
theorem repl_exit_recognition_witness :
    (jsk_repl (PythonFeature.mk (Scope.mk []) false Val.vnone [])
        (Ctx.mk [] [] [] [] 5) (fun _ => Val.vnone)
        [ReplEvent.msg "ext()" Val.vnone (ExecRun.mk [] (fun s => s) Fate.normal)]).status
      = ReplStatus.exited ∧
    (jsk_repl (PythonFeature.mk (Scope.mk []) false Val.vnone [])
        (Ctx.mk [] [] [] [] 5) (fun _ => Val.vnone)
        [ReplEvent.msg "exit" Val.vnone (ExecRun.mk [] (fun s => s) Fate.normal)]).sent.getLast?
      = some "Use `exit()` to exit." ∧
    (jsk_repl (PythonFeature.mk (Scope.mk []) false Val.vnone [])
        (Ctx.mk [] [] [] [] 5) (fun _ => Val.vnone)
        [ReplEvent.msg "exit()" Val.vnone (ExecRun.mk [] (fun s => s) Fate.normal)]).iters.map
        (fun it => it.exec.source)
      = ["exit()"] ∧
    (jsk_repl (PythonFeature.mk (Scope.mk []) false Val.vnone [])
        (Ctx.mk [] [] [] [] 5) (fun _ => Val.vnone)
        [ReplEvent.msg "1+1" Val.vnone (ExecRun.mk [] (fun s => s) Fate.normal)]).status
      = ReplStatus.awaitingInput := by
  have h := repl_exit_recognition (PythonFeature.mk (Scope.mk []) false Val.vnone [])
    (Ctx.mk [] [] [] [] 5) (fun _ => Val.vnone) Val.vnone
    (ExecRun.mk [] (fun s => s) Fate.normal) (by decide)
  exact ⟨(h.1 "ext()" (Or.inl rfl)).1, (h.2.1 "exit" (Or.inl rfl)).2.1, h.2.2.1.2.1,
    (h.2.2.2 "1+1" (by decide)).1⟩

/-- C8: cancelling with an int index absent from the registry leaves the
registry unchanged, cancels nothing and raises no error; when the index is
present the first matching task is removed and its handle cancelled; -1 pops
and cancels the most recent task; the literal "~" cancels every task and
clears the registry. -/
theorem cancel_registry_race_safe
    (tasks : List RunningTask) (i : Int) (t : RunningTask) :
    ((∀ t' ∈ tasks, (t'.index : Int) ≠ i) → i ≠ -1 →
        (jsk_cancel tasks (CancelIndex.int i)).tasks = tasks ∧
        (jsk_cancel tasks (CancelIndex.int i)).cancelled = [] ∧
        (jsk_cancel tasks (CancelIndex.int i)).response ≠ CancelResult.badArgument) ∧
    (tasks.find? (fun t' => (t'.index : Int) == i) = some t → i ≠ -1 →
        (jsk_cancel tasks (CancelIndex.int i)).tasks = tasks.erase t ∧
        (jsk_cancel tasks (CancelIndex.int i)).cancelled = [t.handleId]) ∧
    (tasks.getLast? = some t →
        (jsk_cancel tasks (CancelIndex.int (-1))).tasks = tasks.dropLast ∧
        (jsk_cancel tasks (CancelIndex.int (-1))).cancelled = [t.handleId]) ∧
    (tasks ≠ [] →
        (jsk_cancel tasks (CancelIndex.str "~")).tasks = [] ∧
        (jsk_cancel tasks (CancelIndex.str "~")).cancelled
          = tasks.map (fun t' => t'.handleId)) := by
  refine ⟨fun hall hne => ?_, fun hfind hne => ?_, fun hlast => ?_, fun hne => ?_⟩
  · by_cases he : tasks.isEmpty
    · refine ⟨?_, ?_, ?_⟩ <;> simp [jsk_cancel, he]
    · have hfind : tasks.find? (fun t' => (t'.index : Int) == i) = none :=
        List.find?_eq_none.mpr (fun x hx => by simpa using hall x hx)
      refine ⟨?_, ?_, ?_⟩ <;> simp [jsk_cancel, he, hne, hfind]
  · have he : tasks.isEmpty = false := by
      cases tasks with
      | nil => cases hfind
      | cons a l => rfl
    refine ⟨?_, ?_⟩ <;> simp [jsk_cancel, he, hne, hfind]
  · have he : tasks.isEmpty = false := by
      cases tasks with
      | nil => cases hlast
      | cons a l => rfl
    refine ⟨?_, ?_⟩ <;> simp [jsk_cancel, he, hlast]
  · have he : tasks.isEmpty = false := by
      cases tasks with
      | nil => exact absurd rfl hne
      | cons a l => rfl
    refine ⟨?_, ?_⟩ <;> simp [jsk_cancel, he]

/-- Witness for `cancel_registry_race_safe` on a concrete two-task registry:
index 5 is unknown and a no-op, index 1 removes and cancels task 1, index -1
pops task 1, and "~" cancels both. -/
theorem cancel_registry_race_safe_witness :
    (jsk_cancel [RunningTask.mk 0 10, RunningTask.mk 1 11] (CancelIndex.int 5)).tasks
        = [RunningTask.mk 0 10, RunningTask.mk 1 11] ∧
    (jsk_cancel [RunningTask.mk 0 10, RunningTask.mk 1 11] (CancelIndex.int 5)).cancelled = [] ∧
    (jsk_cancel [RunningTask.mk 0 10, RunningTask.mk 1 11] (CancelIndex.int 5)).response
        ≠ CancelResult.badArgument ∧
    (jsk_cancel [RunningTask.mk 0 10, RunningTask.mk 1 11] (CancelIndex.int 1)).tasks
        = [RunningTask.mk 0 10, RunningTask.mk 1 11].erase (RunningTask.mk 1 11) ∧
    (jsk_cancel [RunningTask.mk 0 10, RunningTask.mk 1 11] (CancelIndex.int 1)).cancelled = [11] ∧
    (jsk_cancel [RunningTask.mk 0 10, RunningTask.mk 1 11] (CancelIndex.int (-1))).tasks
        = [RunningTask.mk 0 10, RunningTask.mk 1 11].dropLast ∧
    (jsk_cancel [RunningTask.mk 0 10, RunningTask.mk 1 11] (CancelIndex.int (-1))).cancelled
        = [11] ∧
    (jsk_cancel [RunningTask.mk 0 10, RunningTask.mk 1 11] (CancelIndex.str "~")).tasks = [] ∧
    (jsk_cancel [RunningTask.mk 0 10, RunningTask.mk 1 11] (CancelIndex.str "~")).cancelled
        = [10, 11] := by
  have h := cancel_registry_race_safe [RunningTask.mk 0 10, RunningTask.mk 1 11] 5
    (RunningTask.mk 1 11)
  have h1 := cancel_registry_race_safe [RunningTask.mk 0 10, RunningTask.mk 1 11] 1
    (RunningTask.mk 1 11)
  have ha := h.1 (by decide) (by decide)
  have hb := h1.2.1 (by decide) (by decide)
  have hc := h1.2.2.1 (by decide)
  have hd := h1.2.2.2 (by decide)
  exact ⟨ha.1, ha.2.1, ha.2.2, hb.1, hb.2, hc.1, hc.2, hd.1, by rw [hd.2]; rfl⟩

/-- C10: `jsk_python_result_handling` applies the bot-token redaction only to
string results of at most 2000 characters (sent as a plain message); a longer
string result goes out verbatim — unredacted — as a file attachment when the
file check passes, else through the paginator. -/
theorem token_redaction_only_short_strings
    (token : String) (useFC : Bool) (s : String) :
    (s.length ≤ 2000 →
        jsk_python_result_handling token useFC (PyResultVal.str s)
          = Rendering.sentMessage
              ((if s.trim = "" then "​" else s).replace token "[token omitted]")) ∧
    (2000 < s.length →
        jsk_python_result_handling token useFC (PyResultVal.str s)
          = if useFC then Rendering.sentFile "output.py" s
            else Rendering.sentPaginator "```py" "```" s) := by
  constructor
  · intro hle
    show resultStringCase token useFC s = _
    unfold resultStringCase
    rw [if_pos hle]
  · intro hgt
    have hnle : ¬ (s.length ≤ 2000) := not_le.mpr hgt
    show resultStringCase token useFC s = _
    unfold resultStringCase
    rw [if_neg hnle]

/-- Witness for `token_redaction_only_short_strings`: a 2001-character string
is emitted verbatim (file or paginator, no redaction), while a short string
containing the token is sent with the token replaced. -/
theorem token_redaction_only_short_strings_witness :
    jsk_python_result_handling "TOK" true (PyResultVal.str (String.mk (List.replicate 2001 'a')))
        = Rendering.sentFile "output.py" (String.mk (List.replicate 2001 'a')) ∧
    jsk_python_result_handling "TOK" false (PyResultVal.str (String.mk (List.replicate 2001 'a')))
        = Rendering.sentPaginator "```py" "```" (String.mk (List.replicate 2001 'a')) ∧
    jsk_python_result_handling "TOK" true (PyResultVal.str "xTOKy")
        = Rendering.sentMessage
            ((if "xTOKy".trim = "" then "​" else "xTOKy").replace "TOK" "[token omitted]") := by
  have hlen : 2000 < (String.mk (List.replicate 2001 'a')).length := by
    show 2000 < (List.replicate 2001 'a').length
    rw [List.length_replicate]
    norm_num
  refine ⟨?_, ?_, ?_⟩
  · have h := (token_redaction_only_short_strings "TOK" true
      (String.mk (List.replicate 2001 'a'))).2 hlen
    exact h.trans (if_pos rfl)
  · have h := (token_redaction_only_short_strings "TOK" false
      (String.mk (List.replicate 2001 'a'))).2 hlen
    exact h.trans (if_neg (by decide))
  · exact (token_redaction_only_short_strings "TOK" true "xTOKy").1 (by decide)
